import Mathlib

/-!
Verification of the client-side catalog engine of the showcase frontend
(`ShowcasePage`, `FlowPreviewDialog`, `use-favorites`).

The TypeScript code is shallowly embedded as executable Lean definitions:

* JS strings are `String`; `toLowerCase` is modelled character-wise
  (`lowerStr`), `String.prototype.includes` as `strIncludes`.
* Timestamps (`new Date(s).getTime()`) are modelled as already-parsed
  integers; numeric literals in graph layouts are integers.
* Optional / possibly-missing JSON fields are `Option`; a JS `TypeError`
  raised by reading a property of `undefined` is modelled by `Except Unit`
  (`.error ()` = the function throws).
* JS `Array.prototype.sort` (stable since ES2019) is modelled by
  `List.insertionSort`, which is a stable sort; the in-place mutation of an
  array that aliases the store is made explicit by returning the updated
  store from `getFilteredItemsM`.
* `localeCompare`-based alphabetical ordering is modelled by the
  lexicographic order on `String` (a fixed total preorder standing in for
  the locale collation).
-/

namespace Showcase

/-- Character-wise lower-casing, modelling `String.prototype.toLowerCase`. -/
def lowerStr (s : String) : String :=
  String.mk (s.toList.map Char.toLower)

/-- Does `needle` match at the front of `hay`? (helper for `strIncludes`). -/
def subAt : List Char → List Char → Bool
  | [], _ => true
  | _ :: _, [] => false
  | a :: as, b :: bs => a == b && subAt as bs

/-- Does `needle` occur anywhere in `hay`? (helper for `strIncludes`). -/
def subAnywhere (needle : List Char) : List Char → Bool
  | [] => needle.isEmpty
  | b :: bs => subAt needle (b :: bs) || subAnywhere needle bs

/-- Models `hay.includes(needle)` from JS, on already-lowercased inputs. -/
def strIncludes (hay needle : String) : Bool :=
  subAnywhere needle.toList hay.toList

/-- Field `item.type` of a `StoreItem`: the TS union `"FLOW" | "COMPONENT"`. -/
inductive ItemType where
  | FLOW
  | COMPONENT
deriving DecidableEq, Repr, BEq

/-- Field `item.author`: both sub-fields may be missing in malformed data. -/
structure Author where
  username : Option String
  full_name : Option String
deriving DecidableEq, Repr

/-- Field `item.stats`. -/
structure Stats where
  downloads : Nat
  likes : Nat
deriving DecidableEq, Repr

/-- Field `item.dates`; timestamps modelled as parsed integers (`getTime()`). -/
structure Dates where
  created : Int
  updated : Int
deriving DecidableEq, Repr

/-- Field `tag.tags_id`: the `name`/`id` fields may be missing. -/
structure TagsId where
  name : Option String
  id : Option String
deriving DecidableEq, Repr

/-- One entry of `item.tags`; the `tags_id` field may be missing. -/
structure TagEntry where
  tags_id : Option TagsId
deriving DecidableEq, Repr

/-- Field `item.technical` sub-object. -/
structure Technical where
  last_tested_version : Option String
  «private» : Option Bool
deriving DecidableEq, Repr

/-- A `StoreItem` of the showcase page.  Fields that the code reads through
optional chaining (or that malformed snapshot data may omit) are `Option`;
an entry of `tags` may itself be `null`. -/
structure StoreItem where
  id : String
  name : String
  description : String
  type : ItemType
  author : Option Author
  stats : Stats
  dates : Dates
  tags : Option (List (Option TagEntry))
  technical : Option Technical
deriving DecidableEq, Repr

/-- Field `storeData.summary`. -/
structure Summary where
  total_items : Nat
  total_flows : Nat
  total_components : Nat
deriving DecidableEq, Repr

/-- The snapshot held in the `storeData` state. -/
structure StoreData where
  flows : List StoreItem
  components : List StoreItem
  summary : Summary
deriving DecidableEq, Repr

/-- The filter-relevant `useState` fields of `ShowcasePage`, gathered into
one record (the current page is passed separately). -/
structure Criteria where
  searchTerm : String
  sortBy : String
  activeTab : String
  selectedTags : List String
  authorFilter : String
  showPrivateOnly : Bool
  typeFilter : String
  showFavoritesOnly : Bool
deriving DecidableEq, Repr

/-- The initial values of those states on mount. -/
def defaultCriteria : Criteria :=
  { searchTerm := ""
    sortBy := "popular"
    activeTab := "all"
    selectedTags := []
    authorFilter := ""
    showPrivateOnly := false
    typeFilter := "all"
    showFavoritesOnly := false }

/-- A preview-graph viewport `{x, y, zoom}`. -/
structure Viewport where
  x : Int
  y : Int
  zoom : Int
deriving DecidableEq, Repr

/-- A preview-graph node (id, node type, position, label, optional
description, style hint). -/
structure PNode where
  id : String
  ntype : String
  x : Int
  y : Int
  label : String
  descr : Option String
  style : String
deriving DecidableEq, Repr

/-- A preview-graph edge. -/
structure PEdge where
  id : String
  source : String
  target : String
  etype : String
deriving DecidableEq, Repr

/-- The `FlowData` consumed by the preview renderer. -/
structure FlowData where
  nodes : List PNode
  edges : List PEdge
  viewport : Viewport
deriving DecidableEq, Repr

/-- The `data` field of a downloaded store artifact; each of the three
sub-fields may be absent.  Note that a *present* field holds an array that
may well be empty. -/
structure GraphData where
  nodes : Option (List PNode)
  edges : Option (List PEdge)
  viewport : Option Viewport
deriving DecidableEq, Repr

/-- A successfully fetched and parsed store artifact; its `data` field may
be absent. -/
structure StoredPayload where
  data : Option GraphData
deriving DecidableEq, Repr

/-- Function `createPlaceholderFlow` of `FlowPreviewDialog.tsx`: the deterministic
placeholder graph (one node for a component; Input -> process -> Output for
a flow). -/
def createPlaceholderFlow (item : StoreItem) : FlowData :=
  if item.type == ItemType.COMPONENT then
    { nodes := [⟨"component-1", "default", 250, 150, item.name,
        some item.description,
        "background:#f3f4f6;border:2px solid #e5e7eb;borderRadius:8px;padding:10px;minWidth:200px"⟩]
      edges := []
      viewport := ⟨0, 0, 1⟩ }
  else
    { nodes :=
        [⟨"start-1", "input", 50, 150, "Input", none,
           "background:#dbeafe;border:2px solid #3b82f6"⟩,
         ⟨"process-1", "default", 250, 150, item.name, none,
           "background:#f3f4f6;border:2px solid #e5e7eb"⟩,
         ⟨"output-1", "output", 450, 150, "Output", none,
           "background:#dcfce7;border:2px solid #22c55e"⟩]
      edges :=
        [⟨"e1-2", "start-1", "process-1", "smoothstep"⟩,
         ⟨"e2-3", "process-1", "output-1", "smoothstep"⟩]
      viewport := ⟨0, 0, 1⟩ }

/-- Function `loadFlowData` of `FlowPreviewDialog.tsx`.  `fetchResult = none` models
a failed fetch (`!response.ok`), an unparseable body, or a thrown error; in
all those cases the placeholder is used.  Otherwise the branch condition is
the JS truthiness test `data.data && data.data.nodes && data.data.edges`
(a *present* array is truthy even when empty). -/
def loadFlowData (item : StoreItem) (fetchResult : Option StoredPayload) : FlowData :=
  match fetchResult with
  | none => createPlaceholderFlow item
  | some payload =>
    match payload.data with
    | none => createPlaceholderFlow item
    | some d =>
      match d.nodes, d.edges with
      | some ns, some es => { nodes := ns, edges := es, viewport := d.viewport.getD ⟨0, 0, 1⟩ }
      | some _, none => createPlaceholderFlow item
      | none, _ => createPlaceholderFlow item

/-- The branch condition of `loadFlowData`: a payload was fetched, it has a
`data` field, and both `data.nodes` and `data.edges` are present (truthy). -/
def hasParsedGraph (fetchResult : Option StoredPayload) : Bool :=
  match fetchResult with
  | none => false
  | some payload =>
    match payload.data with
    | none => false
    | some d => d.nodes.isSome && d.edges.isSome

/-- The spec's bypass condition, written from the spec's words: a real
payload with *non-empty* node and edge arrays is available. -/
def specHasRealGraph (fetchResult : Option StoredPayload) : Bool :=
  match fetchResult with
  | none => false
  | some payload =>
    match payload.data with
    | none => false
    | some d =>
      match d.nodes, d.edges with
      | some ns, some es => !ns.isEmpty && !es.isEmpty
      | _, _ => false

/-- The response of `POST /favorites/toggle`. -/
structure ToggleResponse where
  is_favorited : Bool
  message : String
  favorite_id : Option String
deriving DecidableEq, Repr

/-- The item lookup at the top of `toggleFavorite`:
`[...flows, ...components].find(i => i.id === itemId)`. -/
def findItem (store : StoreData) (itemId : String) : Option StoreItem :=
  (store.flows ++ store.components).find? (fun i => i.id == itemId)

/-- The observable outcome of one `toggleFavorite` invocation.
`displayBeforeResolve` is the favorite-id cache the UI reads between the
issue of the request and its resolution: the handler performs no cache
write before `await mutateAsync` resolves, so it is the pre-call cache.
On success, `onSuccess` invalidates the `favorites` queries and the cache
is refetched from the server (`serverFavs`); on failure nothing is
invalidated and an error alert is shown. -/
structure ToggleOutcome where
  displayBeforeResolve : List String
  finalFavorites : List String
  errorShown : Bool
  successShown : Bool
deriving DecidableEq, Repr

/-- Handler `toggleFavorite` of `ShowcasePage` composed with the `useToggleFavorite`
mutation: `favs` is the cached favorite-id list at call time, `result` the
resolution of the network request, `serverFavs` the authoritative list the
refetch after invalidation returns. -/
def toggleFavorite (store : StoreData) (favs : List String) (itemId : String)
    (result : Except Unit ToggleResponse) (serverFavs : List String) : ToggleOutcome :=
  match findItem store itemId with
  | none => ⟨favs, favs, false, false⟩
  | some _ =>
    match result with
    | .ok _ => ⟨favs, serverFavs, false, true⟩
    | .error _ => ⟨favs, favs, true, false⟩

/-- The payload `grabFlow` posts to the add-flow mutation. -/
structure FlowPayload where
  name : String
  description : String
  data : FlowData
  folder_id : String
  is_component : Bool
deriving DecidableEq, Repr

/-- The `flowData` object built inside `grabFlow` of `ShowcasePage`. -/
def grabPayload (item : StoreItem) (myCollectionId : Option String) : FlowPayload :=
  { name := item.name ++ " (Grabbed)"
    description := item.description
    data := { nodes := [], edges := [], viewport := ⟨0, 0, 1⟩ }
    folder_id := myCollectionId.getD ""
    is_component := item.type == ItemType.COMPONENT }

/-- Reads `tag?.tags_id?.name` for one entry of `item.tags`. -/
def tagName (t : Option TagEntry) : Option String :=
  (t.bind (·.tags_id)).bind (·.name)

/-- The predicate of the favorites-tab stage: `favorites.has(item.id)`. -/
def favPred (favs : List String) (item : StoreItem) : Bool :=
  favs.contains item.id

/-- The predicate of the search stage of `getFilteredItems` (absent fields
are guarded by optional chaining in the source and match nothing). -/
def searchPred (searchTerm : String) (item : StoreItem) : Bool :=
  let s := lowerStr searchTerm
  strIncludes (lowerStr item.name) s ||
  strIncludes (lowerStr item.description) s ||
  (match item.author.bind (·.username) with
   | some u => strIncludes (lowerStr u) s
   | none => false) ||
  (match item.tags with
   | some ts => ts.any (fun t =>
      match tagName t with
      | some n => strIncludes (lowerStr n) s
      | none => false)
   | none => false) ||
  (match item.technical.bind (·.last_tested_version) with
   | some v => strIncludes (lowerStr v) s
   | none => false)

/-- The predicate of the tag stage: some tag whose name is in
`selectedTags` (entries without a name contribute nothing). -/
def tagPred (selectedTags : List String) (item : StoreItem) : Bool :=
  match item.tags with
  | some ts => ts.any (fun t =>
      match tagName t with
      | some n => selectedTags.contains n
      | none => false)
  | none => false

/-- The author stage reads `item.author.username` with *no* optional
chaining: a missing `author` or `username` raises a `TypeError`, modelled
as `.error ()`. -/
def authorMatch (authorFilter : String) (item : StoreItem) : Except Unit Bool :=
  match item.author with
  | none => .error ()
  | some a =>
    match a.username with
    | none => .error ()
    | some u => .ok (strIncludes (lowerStr u) (lowerStr authorFilter))

/-- The predicate of the private-only stage: `item.technical?.private === true`. -/
def privatePred (item : StoreItem) : Bool :=
  match item.technical with
  | some t => t.«private» == some true
  | none => false

/-- Evaluates `if b then l.filter p else l`: one conditional stage of the pipeline. -/
def condFilter (b : Bool) (p : α → Bool) (l : List α) : List α :=
  if b then l.filter p else l

/-- Models `Array.prototype.filter` with a predicate that may throw: the first
exception aborts the whole call. -/
def filterE (p : α → Except Unit Bool) : List α → Except Unit (List α)
  | [] => .ok []
  | x :: xs =>
    match p x with
    | .error e => .error e
    | .ok b =>
      match filterE p xs with
      | .error e => .error e
      | .ok ys => .ok (if b then x :: ys else ys)

/-- A conditional stage whose predicate may throw. -/
def condFilterE (b : Bool) (p : α → Except Unit Bool) (l : List α) :
    Except Unit (List α) :=
  if b then filterE p l else .ok l

/-- Sort key of the `"popular"` comparator: `likes + downloads`. -/
def popKey (item : StoreItem) : Nat :=
  item.stats.likes + item.stats.downloads

/-- Item `a` may precede `b` under the `"popular"` comparator (descending). -/
def rPopular (a b : StoreItem) : Prop := popKey b ≤ popKey a

/-- Item `a` may precede `b` under the `"recent"` comparator (descending by
`dates.updated`). -/
def rRecent (a b : StoreItem) : Prop := b.dates.updated ≤ a.dates.updated

/-- Item `a` may precede `b` under the `"alphabetical"` comparator (ascending
by name; `localeCompare` modelled by the lexicographic order). -/
def rAlpha (a b : StoreItem) : Prop := a.name ≤ b.name

/-- Item `a` may precede `b` under the `"downloads"` comparator (descending). -/
def rDownloads (a b : StoreItem) : Prop := b.stats.downloads ≤ a.stats.downloads

/-- Item `a` may precede `b` under the `"likes"` comparator (descending). -/
def rLikes (a b : StoreItem) : Prop := b.stats.likes ≤ a.stats.likes

instance : DecidableRel rPopular :=
  fun a b => inferInstanceAs (Decidable (popKey b ≤ popKey a))

instance : DecidableRel rRecent :=
  fun a b => inferInstanceAs (Decidable (b.dates.updated ≤ a.dates.updated))

instance : DecidableRel rAlpha :=
  fun a b => inferInstanceAs (Decidable (a.name ≤ b.name))

instance : DecidableRel rDownloads :=
  fun a b => inferInstanceAs (Decidable (b.stats.downloads ≤ a.stats.downloads))

instance : DecidableRel rLikes :=
  fun a b => inferInstanceAs (Decidable (b.stats.likes ≤ a.stats.likes))

instance : IsTotal StoreItem rPopular := ⟨fun _ _ => Nat.le_total _ _⟩
instance : IsTrans StoreItem rPopular := ⟨fun _ _ _ h1 h2 => le_trans h2 h1⟩
instance : IsTotal StoreItem rRecent := ⟨fun _ _ => Int.le_total _ _⟩
instance : IsTrans StoreItem rRecent := ⟨fun _ _ _ h1 h2 => le_trans h2 h1⟩
instance : IsTotal StoreItem rAlpha := ⟨fun _ _ => le_total _ _⟩
instance : IsTrans StoreItem rAlpha := ⟨fun _ _ _ h1 h2 => le_trans h1 h2⟩
instance : IsTotal StoreItem rDownloads := ⟨fun _ _ => Nat.le_total _ _⟩
instance : IsTrans StoreItem rDownloads := ⟨fun _ _ _ h1 h2 => le_trans h2 h1⟩
instance : IsTotal StoreItem rLikes := ⟨fun _ _ => Nat.le_total _ _⟩
instance : IsTrans StoreItem rLikes := ⟨fun _ _ _ h1 h2 => le_trans h2 h1⟩

/-- The `if/else if` sorting chain at the end of `getFilteredItems`; an
unknown `sortBy` leaves the list unsorted.  `Array.prototype.sort` is
stable, modelled by the stable `List.insertionSort`. -/
def sortStage (c : Criteria) (l : List StoreItem) : List StoreItem :=
  if c.sortBy == "popular" then List.insertionSort rPopular l
  else if c.sortBy == "recent" then List.insertionSort rRecent l
  else if c.sortBy == "alphabetical" then List.insertionSort rAlpha l
  else if c.sortBy == "downloads" then List.insertionSort rDownloads l
  else if c.sortBy == "likes" then List.insertionSort rLikes l
  else l

/-- Does one of the five comparator branches fire? -/
def sortApplies (c : Criteria) : Bool :=
  c.sortBy == "popular" || c.sortBy == "recent" || c.sortBy == "alphabetical" ||
  c.sortBy == "downloads" || c.sortBy == "likes"

/-- The list-level part of `getFilteredItems`, downstream of the choice of
base array — the `filter(items, criteria, favoriteIds)` contract of the
spec.  Applies the favorites-tab intersection, then the search, tag,
author and private stages (each only when active), then the sort. -/
def filterPipeline (c : Criteria) (favs : List String) (items : List StoreItem) :
    Except Unit (List StoreItem) :=
  match condFilterE (c.authorFilter != "") (authorMatch c.authorFilter)
      (condFilter (!c.selectedTags.isEmpty) (tagPred c.selectedTags)
        (condFilter (c.searchTerm != "") (searchPred c.searchTerm)
          (condFilter (c.activeTab == "favorites") (favPred favs) items))) with
  | .error e => .error e
  | .ok i3 => .ok (sortStage c (condFilter c.showPrivateOnly privatePred i3))

/-- Which store array does the local `items` variable alias after tab
selection?  (`"all"` and `"favorites"` build fresh arrays.) -/
inductive Alias where
  | flows
  | components
  | noalias
deriving DecidableEq, Repr

/-- The base array chosen by the tab-selection stage. -/
def baseList (store : StoreData) (c : Criteria) : List StoreItem :=
  if c.activeTab == "all" then store.flows ++ store.components
  else if c.activeTab == "flows" then store.flows
  else if c.activeTab == "components" then store.components
  else if c.activeTab == "favorites" then store.flows ++ store.components
  else []

/-- Aliasing of the base array (only the `"flows"`/`"components"` tabs hand
out the store's own array). -/
def baseAlias (c : Criteria) : Alias :=
  if c.activeTab == "flows" then Alias.flows
  else if c.activeTab == "components" then Alias.components
  else Alias.noalias

/-- Is any stage active that replaces `items` by a fresh array
(`Array.prototype.filter` allocates) before the sort runs? -/
def stagesActive (c : Criteria) : Bool :=
  (c.activeTab == "favorites") || (c.searchTerm != "") || !c.selectedTags.isEmpty ||
  (c.authorFilter != "") || c.showPrivateOnly

/-- Write the (sorted-in-place) array back through the alias. -/
def writeAlias (store : StoreData) (al : Alias) (l : List StoreItem) : StoreData :=
  match al with
  | .flows => { store with flows := l }
  | .components => { store with components := l }
  | .noalias => store

/-- Function `getFilteredItems` of `ShowcasePage`, with the in-place `sort` made
explicit: returns the filtered-and-sorted list together with the store as
it is *after* the call.  When no filter stage allocated a fresh array, the
sorted array is the store's own array, so a sort that fires reorders the
store through the alias. -/
def getFilteredItemsM (store : StoreData) (c : Criteria) (favs : List String) :
    Except Unit (List StoreItem × StoreData) :=
  match filterPipeline c favs (baseList store c) with
  | .error e => .error e
  | .ok l =>
    .ok (l, if sortApplies c && !stagesActive c
            then writeAlias store (baseAlias c) l
            else store)

/-- Computes `Math.ceil(filteredItems.length / itemsPerPage)` for a positive page
size (natural-number ceiling division). -/
def totalPages (numItems pageSize : Nat) : Nat :=
  (numItems + pageSize - 1) / pageSize

/-- The page-reset `useEffect`: it fires (and sets the page to 1) exactly
when one of its dependencies `[searchTerm, selectedTags, authorFilter,
showPrivateOnly, activeTab]` changed. -/
def pageAfterChange (old new : Criteria) (page : Nat) : Nat :=
  if (old.searchTerm != new.searchTerm) || (old.selectedTags != new.selectedTags) ||
     (old.authorFilter != new.authorFilter) || (old.showPrivateOnly != new.showPrivateOnly) ||
     (old.activeTab != new.activeTab)
  then 1 else page

/-! Concrete snapshot data used by counterexamples and witnesses. -/

/-- A flow item with one well-formed tag `t1` and popularity key 1. -/
def itemA : StoreItem :=
  { id := "a", name := "A", description := "first", type := ItemType.FLOW
    author := some ⟨some "alice", none⟩
    stats := ⟨1, 0⟩, dates := ⟨0, 10⟩
    tags := some [some ⟨some ⟨some "t1", some "tid1"⟩⟩]
    technical := none }

/-- A flow item with no tags field and popularity key 5. -/
def itemB : StoreItem :=
  { id := "b", name := "B", description := "second", type := ItemType.FLOW
    author := some ⟨some "bob", none⟩
    stats := ⟨2, 3⟩, dates := ⟨0, 20⟩
    tags := none
    technical := none }

/-- A two-flow snapshot. -/
def toyStore : StoreData := ⟨[itemA, itemB], [], ⟨2, 2, 0⟩⟩

/-- An item whose `author` field is missing entirely (malformed data). -/
def crashItem : StoreItem :=
  { id := "m", name := "Malformed", description := "", type := ItemType.FLOW
    author := none, stats := ⟨0, 0⟩, dates := ⟨0, 0⟩, tags := none, technical := none }

/-- A snapshot containing only the malformed item. -/
def crashStore : StoreData := ⟨[crashItem], [], ⟨1, 1, 0⟩⟩

/-- Default criteria with a non-empty author filter. -/
def crashCriteria : Criteria := { defaultCriteria with authorFilter := "a" }

/-- Default criteria on the `"flows"` tab (sort stays `"popular"`). -/
def flowsTabCriteria : Criteria := { defaultCriteria with activeTab := "flows" }

/-- Default criteria with tag `t1` selected. -/
def tagCriteria : Criteria := { defaultCriteria with selectedTags := ["t1"] }

/-- A stored artifact whose `data` field holds *empty* node and edge
arrays (both truthy in JS). -/
def emptyGraphPayload : StoredPayload := ⟨some ⟨some [], some [], none⟩⟩

/-- A sample real preview node. -/
def pn0 : PNode := ⟨"n1", "default", 0, 0, "N", none, ""⟩

/-- A sample real preview edge. -/
def pe0 : PEdge := ⟨"e1", "n1", "n1", "default"⟩

/-! Helper lemmas about the pipeline combinators. -/

theorem condFilter_sub {p : α → Bool} {b : Bool} {l : List α} {x : α}
    (hx : x ∈ condFilter b p l) : x ∈ l := by
  unfold condFilter at hx
  split at hx
  · exact (List.mem_filter.mp hx).1
  · exact hx

theorem condFilter_pred {p : α → Bool} {b : Bool} {l : List α} {x : α}
    (hx : x ∈ condFilter b p l) (hb : b = true) : p x = true := by
  subst hb
  unfold condFilter at hx
  rw [if_pos rfl] at hx
  exact (List.mem_filter.mp hx).2

theorem condFilter_eq_self {p : α → Bool} {b : Bool} {l : List α}
    (h : b = true → ∀ x ∈ l, p x = true) : condFilter b p l = l := by
  unfold condFilter
  by_cases hb : b = true
  · rw [if_pos hb]
    exact List.filter_eq_self.mpr (h hb)
  · rw [if_neg hb]

theorem filterE_sub {p : α → Except Unit Bool} :
    ∀ {l l₂ : List α}, filterE p l = .ok l₂ → ∀ {x : α}, x ∈ l₂ → x ∈ l := by
  intro l
  induction l with
  | nil =>
    intro l₂ h x hx
    unfold filterE at h
    injection h with h
    subst h
    cases hx
  | cons a as ih =>
    intro l₂ h x hx
    unfold filterE at h
    split at h
    · cases h
    · rename_i bv hpa
      split at h
      · cases h
      · rename_i ys hys
        injection h with h
        subst h
        split at hx
        · rcases List.mem_cons.mp hx with hxa | hxy
          · exact hxa ▸ List.mem_cons_self a as
          · exact List.mem_cons_of_mem a (ih hys hxy)
        · exact List.mem_cons_of_mem a (ih hys hx)

theorem filterE_pred {p : α → Except Unit Bool} :
    ∀ {l l₂ : List α}, filterE p l = .ok l₂ → ∀ {x : α}, x ∈ l₂ → p x = .ok true := by
  intro l
  induction l with
  | nil =>
    intro l₂ h x hx
    unfold filterE at h
    injection h with h
    subst h
    cases hx
  | cons a as ih =>
    intro l₂ h x hx
    unfold filterE at h
    split at h
    · cases h
    · rename_i bv hpa
      split at h
      · cases h
      · rename_i ys hys
        injection h with h
        subst h
        split at hx
        · rename_i hbv
          subst hbv
          rcases List.mem_cons.mp hx with hxa | hxy
          · exact hxa ▸ hpa
          · exact ih hys hxy
        · exact ih hys hx

theorem filterE_eq_self {p : α → Except Unit Bool} :
    ∀ {l : List α}, (∀ x ∈ l, p x = .ok true) → filterE p l = .ok l := by
  intro l
  induction l with
  | nil => intro _; rfl
  | cons a as ih =>
    intro h
    have ha : p a = .ok true := h a (List.mem_cons_self a as)
    have has : filterE p as = .ok as :=
      ih (fun x hx => h x (List.mem_cons_of_mem a hx))
    unfold filterE
    rw [ha, has]
    rfl

theorem condFilterE_sub {p : α → Except Unit Bool} {b : Bool} {l l₂ : List α} {x : α}
    (h : condFilterE b p l = .ok l₂) (hx : x ∈ l₂) : x ∈ l := by
  unfold condFilterE at h
  by_cases hb : b = true
  · rw [if_pos hb] at h
    exact filterE_sub h hx
  · rw [if_neg hb] at h
    injection h with h
    subst h
    exact hx

theorem condFilterE_pred {p : α → Except Unit Bool} {b : Bool} {l l₂ : List α} {x : α}
    (h : condFilterE b p l = .ok l₂) (hx : x ∈ l₂) (hb : b = true) : p x = .ok true := by
  unfold condFilterE at h
  rw [if_pos hb] at h
  exact filterE_pred h hx

theorem condFilterE_eq_self {p : α → Except Unit Bool} {b : Bool} {l : List α}
    (h : b = true → ∀ x ∈ l, p x = .ok true) : condFilterE b p l = .ok l := by
  unfold condFilterE
  by_cases hb : b = true
  · rw [if_pos hb]
    exact filterE_eq_self (h hb)
  · rw [if_neg hb]

theorem sortStage_perm (c : Criteria) (l : List StoreItem) : (sortStage c l).Perm l := by
  unfold sortStage
  split_ifs <;> first
    | exact List.perm_insertionSort _ _
    | exact List.Perm.refl _

theorem insertionSort_sorted_fix {r : α → α → Prop} [DecidableRel r]
    [IsTotal α r] [IsTrans α r] (l : List α) :
    List.insertionSort r (List.insertionSort r l) = List.insertionSort r l :=
  (List.sorted_insertionSort r l).insertionSort_eq

theorem sortStage_idem (c : Criteria) (l : List StoreItem) :
    sortStage c (sortStage c l) = sortStage c l := by
  unfold sortStage
  split_ifs <;> first
    | exact insertionSort_sorted_fix _
    | rfl

theorem filterPipeline_sound {c : Criteria} {favs : List String} {items l₂ : List StoreItem}
    (h : filterPipeline c favs items = .ok l₂) :
    ∀ x ∈ l₂, x ∈ items ∧
      ((c.activeTab == "favorites") = true → favPred favs x = true) ∧
      ((c.searchTerm != "") = true → searchPred c.searchTerm x = true) ∧
      ((!c.selectedTags.isEmpty) = true → tagPred c.selectedTags x = true) ∧
      ((c.authorFilter != "") = true → authorMatch c.authorFilter x = .ok true) ∧
      (c.showPrivateOnly = true → privatePred x = true) := by
  intro x hx
  unfold filterPipeline at h
  cases hE : condFilterE (c.authorFilter != "") (authorMatch c.authorFilter)
      (condFilter (!c.selectedTags.isEmpty) (tagPred c.selectedTags)
        (condFilter (c.searchTerm != "") (searchPred c.searchTerm)
          (condFilter (c.activeTab == "favorites") (favPred favs) items))) with
  | error e =>
    rw [hE] at h
    cases h
  | ok i3 =>
    rw [hE] at h
    injection h with h
    subst h
    have hx4 : x ∈ condFilter c.showPrivateOnly privatePred i3 :=
      (sortStage_perm c _).mem_iff.mp hx
    have hx3 : x ∈ i3 := condFilter_sub hx4
    have hx2 := condFilterE_sub hE hx3
    have hx1 := condFilter_sub hx2
    have hx0 := condFilter_sub hx1
    exact ⟨condFilter_sub hx0,
      fun hb => condFilter_pred hx0 hb,
      fun hb => condFilter_pred hx1 hb,
      fun hb => condFilter_pred hx2 hb,
      fun hb => condFilterE_pred hE hx3 hb,
      fun hb => condFilter_pred hx4 hb⟩

theorem filterPipeline_inactive {c : Criteria} {favs : List String} {items : List StoreItem}
    (h : stagesActive c = false) :
    filterPipeline c favs items = .ok (sortStage c items) := by
  unfold stagesActive at h
  simp only [Bool.or_eq_false_iff] at h
  obtain ⟨⟨⟨⟨h1, h2⟩, h3⟩, h4⟩, h5⟩ := h
  simp [filterPipeline, condFilterE, condFilter, h1, h2, h3, h4, h5]

theorem getFilteredItemsM_ok {store : StoreData} {c : Criteria} {favs : List String}
    {l : List StoreItem} {st' : StoreData}
    (h : getFilteredItemsM store c favs = .ok (l, st')) :
    filterPipeline c favs (baseList store c) = .ok l ∧
    st' = (if (sortApplies c && !stagesActive c) = true
           then writeAlias store (baseAlias c) l else store) := by
  unfold getFilteredItemsM at h
  cases hE : filterPipeline c favs (baseList store c) with
  | error e =>
    rw [hE] at h
    cases h
  | ok l0 =>
    rw [hE] at h
    injection h with h
    injection h with h1 h2
    subst h1
    exact ⟨rfl, h2.symm⟩

theorem writeAlias_effect (store : StoreData) (c : Criteria) (l : List StoreItem)
    (hl : l.Perm (baseList store c)) :
    (writeAlias store (baseAlias c) l).flows.Perm store.flows ∧
    (writeAlias store (baseAlias c) l).components.Perm store.components ∧
    (writeAlias store (baseAlias c) l).summary = store.summary := by
  unfold baseAlias
  by_cases h1 : (c.activeTab == "flows") = true
  · rw [if_pos h1]
    have hA : c.activeTab = "flows" := by simpa using h1
    have hb : baseList store c = store.flows := by
      unfold baseList
      rw [hA, if_neg (by decide), if_pos (by decide)]
    simp only [writeAlias]
    exact ⟨hb ▸ hl, List.Perm.refl _, trivial⟩
  · rw [if_neg h1]
    by_cases h2 : (c.activeTab == "components") = true
    · rw [if_pos h2]
      have hA : c.activeTab = "components" := by simpa using h2
      have hb : baseList store c = store.components := by
        unfold baseList
        rw [hA, if_neg (by decide), if_neg (by decide), if_pos (by decide)]
      simp only [writeAlias]
      exact ⟨List.Perm.refl _, hb ▸ hl, trivial⟩
    · rw [if_neg h2]
      simp only [writeAlias]
      exact ⟨List.Perm.refl _, List.Perm.refl _, trivial⟩

/-! Claim theorems. -/

/-- Claim C1, counterexample: on a toggle of item `"a"` (which exists in the
store and is not currently favorited), the favorite-id set displayed while
the request is in flight still does not contain `"a"` — the claimed
optimistic flip (which would make the displayed membership `true`) never
happens. -/
theorem toggle_no_optimistic_flip :
    findItem toyStore "a" = some itemA ∧
    (([] : List String).contains "a") = false ∧
    ((toggleFavorite toyStore [] "a" (.error ()) []).displayBeforeResolve.contains "a")
      = false := by
  decide

/-- Claim C1 (amended): the controller performs *no* optimistic flip — the
displayed favorite-id cache is unchanged while the toggle request is in
flight.  On failure a user-visible error is raised and the local favorite
set is exactly as before the toggle (so there is no partial state); on
success the cache is replaced by the server's authoritative list and a
success message is shown. -/
theorem toggleFavorite_protocol (store : StoreData) (favs : List String)
    (itemId : String) (serverFavs : List String) (it : StoreItem)
    (hfind : findItem store itemId = some it) :
    (∀ r : Except Unit ToggleResponse,
      (toggleFavorite store favs itemId r serverFavs).displayBeforeResolve = favs) ∧
    (toggleFavorite store favs itemId (.error ()) serverFavs).errorShown = true ∧
    (toggleFavorite store favs itemId (.error ()) serverFavs).finalFavorites = favs ∧
    (∀ resp : ToggleResponse,
      (toggleFavorite store favs itemId (.ok resp) serverFavs).successShown = true ∧
      (toggleFavorite store favs itemId (.ok resp) serverFavs).finalFavorites
        = serverFavs) := by
  refine ⟨fun r => ?_, ?_, ?_, fun resp => ⟨?_, ?_⟩⟩ <;>
    first
      | (cases r <;> simp [toggleFavorite, hfind])
      | simp [toggleFavorite, hfind]

/-- Witness for the amended C1 theorem at a concrete store and cache. -/
theorem toggleFavorite_protocol_witness :
    findItem toyStore "a" = some itemA ∧
    ((∀ r : Except Unit ToggleResponse,
        (toggleFavorite toyStore ["z"] "a" r ["a", "z"]).displayBeforeResolve = ["z"]) ∧
     (toggleFavorite toyStore ["z"] "a" (.error ()) ["a", "z"]).errorShown = true ∧
     (toggleFavorite toyStore ["z"] "a" (.error ()) ["a", "z"]).finalFavorites = ["z"] ∧
     (∀ resp : ToggleResponse,
       (toggleFavorite toyStore ["z"] "a" (.ok resp) ["a", "z"]).successShown = true ∧
       (toggleFavorite toyStore ["z"] "a" (.ok resp) ["a", "z"]).finalFavorites
         = ["a", "z"])) :=
  ⟨by decide, toggleFavorite_protocol toyStore ["z"] "a" ["a", "z"] itemA (by decide)⟩

/-- Claim C2, counterexample: a stored payload whose node and edge arrays
are present but *empty* lacks non-empty node and edge lists, so by the
claim the placeholder should be used; the code instead takes the real
branch (empty arrays are truthy in JS) and renders the empty graph. -/
theorem preview_empty_arrays_bypass_placeholder :
    specHasRealGraph (some emptyGraphPayload) = false ∧
    loadFlowData itemA (some emptyGraphPayload) ≠ createPlaceholderFlow itemA ∧
    loadFlowData itemA (some emptyGraphPayload) = ⟨[], [], ⟨0, 0, 1⟩⟩ := by
  decide

/-- Claim C2 (amended): the placeholder is used exactly when the payload is
absent/unparseable, has no `data` field, or has an absent `nodes` or
`edges` field; a payload whose `nodes` and `edges` fields are present
arrays — even empty ones — bypasses the placeholder, and then the nodes
and edges are used verbatim with the stored viewport (defaulted to
`{x:0, y:0, zoom:1}` when absent). -/
theorem loadFlowData_branch (item : StoreItem) (fr : Option StoredPayload) :
    (hasParsedGraph fr = false → loadFlowData item fr = createPlaceholderFlow item) ∧
    (∀ gd : GraphData, fr = some ⟨some gd⟩ →
      ∀ ns, gd.nodes = some ns → ∀ es, gd.edges = some es →
        loadFlowData item fr = ⟨ns, es, gd.viewport.getD ⟨0, 0, 1⟩⟩) := by
  constructor
  · intro hf
    match fr with
    | none => rfl
    | some ⟨none⟩ => rfl
    | some ⟨some d⟩ =>
      obtain ⟨dn, de, dv⟩ := d
      cases dn <;> cases de
      · rfl
      · rfl
      · rfl
      · simp [hasParsedGraph] at hf
  · intro gd hfr ns hns es hes
    subst hfr
    obtain ⟨gn, ge, gv⟩ := gd
    simp only at hns hes
    subst hns
    subst hes
    rfl

/-- Witness for the amended C2 theorem: a missing payload yields the
placeholder; a parsed payload yields its own nodes, edges and viewport. -/
theorem loadFlowData_branch_witness :
    loadFlowData itemA none = createPlaceholderFlow itemA ∧
    loadFlowData itemA (some ⟨some ⟨some [pn0], some [pe0], some ⟨1, 2, 3⟩⟩⟩)
      = ⟨[pn0], [pe0], ⟨1, 2, 3⟩⟩ :=
  ⟨(loadFlowData_branch itemA none).1 (by decide),
   (loadFlowData_branch itemA (some ⟨some ⟨some [pn0], some [pe0], some ⟨1, 2, 3⟩⟩⟩)).2
     ⟨some [pn0], some [pe0], some ⟨1, 2, 3⟩⟩ rfl [pn0] rfl [pe0] rfl⟩

/-- Claim C3, counterexample: for an empty item list `totalPages` is
`Math.ceil(0 / 24) = 0`, not the claimed minimum of 1. -/
theorem totalPages_empty_not_one : ¬ (1 ≤ totalPages 0 24) := by
  decide

/-- Claim C3 (amended): for every positive page size, `totalPages` is
exactly the ceiling of `items.length / pageSize` (characterized
multiplicatively), with *no* minimum of 1: an empty list yields 0 pages. -/
theorem totalPages_ceil (n p : Nat) (hp : 0 < p) :
    n ≤ p * totalPages n p ∧ p * totalPages n p < n + p ∧ totalPages 0 p = 0 := by
  unfold totalPages
  refine ⟨?_, ?_, ?_⟩
  · have hdm : p * ((n + p - 1) / p) + (n + p - 1) % p = n + p - 1 :=
      Nat.div_add_mod _ _
    have hmod : (n + p - 1) % p < p := Nat.mod_lt _ hp
    generalize hq : (n + p - 1) / p = q at hdm ⊢
    generalize hm : p * q = m at hdm ⊢
    generalize hr : (n + p - 1) % p = r at hdm hmod
    omega
  · have hle : (n + p - 1) / p * p ≤ n + p - 1 := Nat.div_mul_le_self _ _
    have : p * ((n + p - 1) / p) ≤ n + p - 1 := by
      rw [Nat.mul_comm]; exact hle
    omega
  · have : (0 + p - 1) / p = (p - 1) / p := by rw [Nat.zero_add]
    rw [this]
    exact Nat.div_eq_of_lt (Nat.sub_lt hp Nat.one_pos)

/-- Witness for the amended C3 theorem at the spec's own example
(100 items, 24 per page — 5 pages). -/
theorem totalPages_ceil_witness :
    0 < 24 ∧ totalPages 100 24 = 5 ∧
    (100 ≤ 24 * totalPages 100 24 ∧ 24 * totalPages 100 24 < 100 + 24 ∧
      totalPages 0 24 = 0) :=
  ⟨by decide, by decide, totalPages_ceil 100 24 (by decide)⟩

/-- Claim C5, counterexample: `sortBy` is not among the dependencies of the
page-reset effect, so mutating the sort key (here from `"popular"` to
`"recent"`) leaves the current page at 3 instead of resetting it to 1. -/
theorem sort_change_keeps_page :
    defaultCriteria.sortBy ≠ "recent" ∧
    pageAfterChange defaultCriteria { defaultCriteria with sortBy := "recent" } 3 = 3 := by
  decide

/-- Claim C5 (amended): mutations of `searchTerm`, `selectedTags`,
`authorFilter` (the author substring), `showPrivateOnly` and `activeTab`
reset the current page to 1, but a mutation of the sort key does *not* —
`sortBy` is missing from the effect's dependency list. -/
theorem pageReset_deps (old : Criteria) (page : Nat) :
    (∀ s, pageAfterChange old { old with sortBy := s } page = page) ∧
    (∀ s, old.searchTerm ≠ s → pageAfterChange old { old with searchTerm := s } page = 1) ∧
    (∀ ts, old.selectedTags ≠ ts →
      pageAfterChange old { old with selectedTags := ts } page = 1) ∧
    (∀ s, old.authorFilter ≠ s →
      pageAfterChange old { old with authorFilter := s } page = 1) ∧
    (∀ b, old.showPrivateOnly ≠ b →
      pageAfterChange old { old with showPrivateOnly := b } page = 1) ∧
    (∀ s, old.activeTab ≠ s → pageAfterChange old { old with activeTab := s } page = 1) := by
  obtain ⟨se, so, ta, tg, au, pv, tf, fo⟩ := old
  refine ⟨fun s => ?_, fun s hs => ?_, fun ts hts => ?_, fun s hs => ?_,
    fun b hb => ?_, fun s hs => ?_⟩ <;>
    simp_all [pageAfterChange, bne_iff_ne]

/-- Witness for the amended C5 theorem at concrete criteria and page 7. -/
theorem pageReset_deps_witness :
    ((∀ s, pageAfterChange defaultCriteria { defaultCriteria with sortBy := s } 7 = 7) ∧
     (∀ s, defaultCriteria.searchTerm ≠ s →
       pageAfterChange defaultCriteria { defaultCriteria with searchTerm := s } 7 = 1) ∧
     (∀ ts, defaultCriteria.selectedTags ≠ ts →
       pageAfterChange defaultCriteria { defaultCriteria with selectedTags := ts } 7 = 1) ∧
     (∀ s, defaultCriteria.authorFilter ≠ s →
       pageAfterChange defaultCriteria { defaultCriteria with authorFilter := s } 7 = 1) ∧
     (∀ b, defaultCriteria.showPrivateOnly ≠ b →
       pageAfterChange defaultCriteria { defaultCriteria with showPrivateOnly := b } 7 = 1) ∧
     (∀ s, defaultCriteria.activeTab ≠ s →
       pageAfterChange defaultCriteria { defaultCriteria with activeTab := s } 7 = 1)) ∧
    pageAfterChange defaultCriteria { defaultCriteria with searchTerm := "q" } 7 = 1 :=
  ⟨pageReset_deps defaultCriteria 7,
   (pageReset_deps defaultCriteria 7).2.1 "q" (by decide)⟩

/-- Claim C6 (code bug): on a catalog whose single item has no `author`
field, a non-empty author filter makes `getFilteredItems` throw (the code
reads `item.author.username` without optional chaining), instead of
silently excluding the item as the spec requires. -/
theorem author_filter_throws :
    getFilteredItemsM crashStore crashCriteria [] = .error () := by
  rfl

/-- Claim C9: `grabFlow` posts a workspace entity named
`item.name + " (Grabbed)"` whose graph data is the constant empty
placeholder `{nodes: [], edges: [], viewport: {x:0, y:0, zoom:1}}` — the
same for every item, so the copy never contains the item's real nodes or
edges. -/
theorem grabPayload_placeholder (item : StoreItem) (cid : Option String) :
    (grabPayload item cid).name = item.name ++ " (Grabbed)" ∧
    (grabPayload item cid).data = ⟨[], [], ⟨0, 0, 1⟩⟩ ∧
    ∀ (other : StoreItem) (ocid : Option String),
      (grabPayload item cid).data = (grabPayload other ocid).data :=
  ⟨rfl, rfl, fun _ _ => rfl⟩

/-- Witness for the C9 theorem at a concrete item. -/
theorem grabPayload_placeholder_witness :
    (grabPayload itemA none).name = "A (Grabbed)" ∧
    (grabPayload itemA none).data = ⟨[], [], ⟨0, 0, 1⟩⟩ :=
  ⟨(grabPayload_placeholder itemA none).1, (grabPayload_placeholder itemA none).2.1⟩

/-- Claim C4, counterexample: on the `"flows"` tab with no narrowing filter
active, the local `items` variable aliases `storeData.flows` and the
in-place popular sort reorders the store's own array: after the call the
store's flows are `[itemB, itemA]`, not the original `[itemA, itemB]`. -/
theorem filter_mutates_store :
    getFilteredItemsM toyStore flowsTabCriteria []
      = .ok ([itemB, itemA], ⟨[itemB, itemA], [], ⟨2, 2, 0⟩⟩) ∧
    (⟨[itemB, itemA], [], ⟨2, 2, 0⟩⟩ : StoreData) ≠ toyStore := by
  constructor
  · rfl
  · decide

/-- Claim C4 (amended): `getFilteredItems` is not pure — it sorts in place.
The store's arrays are always preserved *as multisets* (permutations) and
the summary is untouched, and the store is completely unchanged whenever
some narrowing stage allocated a fresh array or no sort branch fired; but
on the `"flows"`/`"components"` tabs with no narrowing filter active the
fired sort reorders the store's own array. -/
theorem getFilteredItems_store_effect (store : StoreData) (c : Criteria)
    (favs : List String) (l : List StoreItem) (st' : StoreData)
    (h : getFilteredItemsM store c favs = .ok (l, st')) :
    st'.flows.Perm store.flows ∧ st'.components.Perm store.components ∧
    st'.summary = store.summary ∧
    (stagesActive c = true → st' = store) ∧
    (sortApplies c = false → st' = store) := by
  obtain ⟨hpipe, hst⟩ := getFilteredItemsM_ok h
  by_cases hcond : (sortApplies c && !stagesActive c) = true
  · rw [if_pos hcond] at hst
    rw [Bool.and_eq_true] at hcond
    have hsa : sortApplies c = true := hcond.1
    have hstages : stagesActive c = false := by simpa using hcond.2
    have hl : l = sortStage c (baseList store c) := by
      have h2 := @filterPipeline_inactive c favs (baseList store c) hstages
      rw [h2] at hpipe
      injection hpipe with h3
      exact h3.symm
    have hperm : l.Perm (baseList store c) := hl ▸ sortStage_perm c _
    subst hst
    obtain ⟨p1, p2, p3⟩ := writeAlias_effect store c l hperm
    refine ⟨p1, p2, p3, ?_, ?_⟩
    · intro hcontr
      rw [hcontr] at hstages
      exact absurd hstages (by decide)
    · intro hcontr
      rw [hcontr] at hsa
      exact absurd hsa (by decide)
  · rw [if_neg hcond] at hst
    subst hst
    exact ⟨List.Perm.refl _, List.Perm.refl _, rfl, fun _ => rfl, fun _ => rfl⟩

/-- Witness for the amended C4 theorem at the concrete mutating input. -/
theorem getFilteredItems_store_effect_witness :
    getFilteredItemsM toyStore flowsTabCriteria []
      = .ok ([itemB, itemA], ⟨[itemB, itemA], [], ⟨2, 2, 0⟩⟩) ∧
    ((⟨[itemB, itemA], [], ⟨2, 2, 0⟩⟩ : StoreData).flows.Perm toyStore.flows ∧
     (⟨[itemB, itemA], [], ⟨2, 2, 0⟩⟩ : StoreData).components.Perm toyStore.components ∧
     (⟨[itemB, itemA], [], ⟨2, 2, 0⟩⟩ : StoreData).summary = toyStore.summary ∧
     (stagesActive flowsTabCriteria = true →
       (⟨[itemB, itemA], [], ⟨2, 2, 0⟩⟩ : StoreData) = toyStore) ∧
     (sortApplies flowsTabCriteria = false →
       (⟨[itemB, itemA], [], ⟨2, 2, 0⟩⟩ : StoreData) = toyStore)) :=
  ⟨by rfl,
   getFilteredItems_store_effect toyStore flowsTabCriteria [] [itemB, itemA]
     ⟨[itemB, itemA], [], ⟨2, 2, 0⟩⟩ (by rfl)⟩

/-- Claim C7: when `selectedTags` is non-empty, every item returned by the
filter pipeline has at least one tag whose name is in `selectedTags`
(nameless tag entries contribute nothing), and the tag stage is
AND-combined with the other stages (survivors also satisfy the active
search and private-only predicates). -/
theorem filter_tagged_only (store : StoreData) (c : Criteria) (favs : List String)
    (l : List StoreItem) (st' : StoreData)
    (hsel : c.selectedTags ≠ [])
    (h : getFilteredItemsM store c favs = .ok (l, st')) :
    ∀ x ∈ l, tagPred c.selectedTags x = true ∧
      (c.searchTerm ≠ "" → searchPred c.searchTerm x = true) ∧
      (c.showPrivateOnly = true → privatePred x = true) := by
  obtain ⟨hpipe, _⟩ := getFilteredItemsM_ok h
  intro x hx
  have hs := filterPipeline_sound hpipe x hx
  have hne : (!c.selectedTags.isEmpty) = true := by
    have : c.selectedTags.isEmpty = false := by
      cases hcs : c.selectedTags with
      | nil => exact absurd hcs hsel
      | cons a as => rfl
    rw [this]
    rfl
  exact ⟨hs.2.2.2.1 hne,
    fun hq => hs.2.2.1 (bne_iff_ne.mpr hq),
    hs.2.2.2.2.2⟩

/-- Witness for the C7 theorem: with tag `t1` selected, only the item
carrying `t1` survives, and it satisfies the tag predicate. -/
theorem filter_tagged_only_witness :
    tagCriteria.selectedTags ≠ [] ∧
    getFilteredItemsM toyStore tagCriteria [] = .ok ([itemA], toyStore) ∧
    (∀ x ∈ [itemA], tagPred tagCriteria.selectedTags x = true ∧
      (tagCriteria.searchTerm ≠ "" → searchPred tagCriteria.searchTerm x = true) ∧
      (tagCriteria.showPrivateOnly = true → privatePred x = true)) :=
  ⟨by decide, by rfl,
   filter_tagged_only toyStore tagCriteria [] [itemA] toyStore (by decide) (by rfl)⟩

/-- Claim C8: the list-level filter pipeline is idempotent — re-filtering
its own output with the same criteria and favorite set returns exactly the
same list (the conditional stages keep every survivor, and the stable sort
of an already-sorted list is the identity). -/
theorem filterPipeline_idempotent (c : Criteria) (favs : List String)
    (items l2 : List StoreItem)
    (h : filterPipeline c favs items = .ok l2) :
    filterPipeline c favs l2 = .ok l2 := by
  have hs := filterPipeline_sound h
  have hsfix : sortStage c l2 = l2 := by
    unfold filterPipeline at h
    cases hE : condFilterE (c.authorFilter != "") (authorMatch c.authorFilter)
        (condFilter (!c.selectedTags.isEmpty) (tagPred c.selectedTags)
          (condFilter (c.searchTerm != "") (searchPred c.searchTerm)
            (condFilter (c.activeTab == "favorites") (favPred favs) items))) with
    | error e =>
      rw [hE] at h
      cases h
    | ok i3 =>
      rw [hE] at h
      injection h with h
      rw [← h]
      exact sortStage_idem c _
  have h0 : condFilter (c.activeTab == "favorites") (favPred favs) l2 = l2 :=
    condFilter_eq_self (fun hb x hx => (hs x hx).2.1 hb)
  have h1 : condFilter (c.searchTerm != "") (searchPred c.searchTerm) l2 = l2 :=
    condFilter_eq_self (fun hb x hx => (hs x hx).2.2.1 hb)
  have h2 : condFilter (!c.selectedTags.isEmpty) (tagPred c.selectedTags) l2 = l2 :=
    condFilter_eq_self (fun hb x hx => (hs x hx).2.2.2.1 hb)
  have h3 : condFilterE (c.authorFilter != "") (authorMatch c.authorFilter) l2 = .ok l2 :=
    condFilterE_eq_self (fun hb x hx => (hs x hx).2.2.2.2.1 hb)
  have h4 : condFilter c.showPrivateOnly privatePred l2 = l2 :=
    condFilter_eq_self (fun hb x hx => (hs x hx).2.2.2.2.2 hb)
  unfold filterPipeline
  rw [h0, h1, h2, h3]
  show Except.ok (sortStage c (condFilter c.showPrivateOnly privatePred l2)) = Except.ok l2
  rw [h4, hsfix]

/-- Witness for the C8 theorem: filtering `[itemA, itemB]` by tag `t1`
yields `[itemA]`, and filtering `[itemA]` again yields `[itemA]`. -/
theorem filterPipeline_idempotent_witness :
    filterPipeline tagCriteria [] [itemA, itemB] = .ok [itemA] ∧
    filterPipeline tagCriteria [] [itemA] = .ok [itemA] :=
  ⟨by rfl, filterPipeline_idempotent tagCriteria [] [itemA, itemB] [itemA] (by rfl)⟩

/-- Claim C10: the `typeFilter` and `showFavoritesOnly` controls are never
read by `getFilteredItems` — any two values of each, with the store, the
favorite set and all other criteria held equal, produce the identical
result (same ordered list and same store effect). -/
theorem filter_ignores_type_and_favorites_controls (store : StoreData)
    (favs : List String) (c : Criteria) (tf1 tf2 : String) (sf1 sf2 : Bool) :
    getFilteredItemsM store { c with typeFilter := tf1, showFavoritesOnly := sf1 } favs =
    getFilteredItemsM store { c with typeFilter := tf2, showFavoritesOnly := sf2 } favs := by
  cases c
  rfl

/-- Witness for the C10 theorem at concrete control values. -/
theorem filter_ignores_controls_witness :
    getFilteredItemsM toyStore
        { defaultCriteria with typeFilter := "FLOW", showFavoritesOnly := true } [] =
    getFilteredItemsM toyStore
        { defaultCriteria with typeFilter := "COMPONENT", showFavoritesOnly := false } [] :=
  filter_ignores_type_and_favorites_controls toyStore [] defaultCriteria
    "FLOW" "COMPONENT" true false

end Showcase
